import Mathlib

/-!
Verification development for a ChatGPT Telegram bot
(`bot/bot.py`, `bot/openai_utils.py`, `bot/database.py`).

The Python sources are shallowly embedded below:
- MongoDB documents (`user` and `dialog` collections) become Lean structures,
  the collections become functions from keys to `Option` documents;
- stateful code becomes explicit state passing; code that can raise becomes
  `Option`-valued (with `none` standing for the raised exception);
- external effects (the remote OpenAI model, `uuid.uuid4()`, `datetime.now()`,
  the `tiktoken` tokenizer, base64 encoding) become explicit parameters;
- Python `str` is modelled as Lean `String` (both index by code points);
  Python `float` (`n_transcribed_seconds`) is modelled as `Rat`.
-/

/- ===================== Data model ===================== -/

/-- One entry of the per-model token ledger stored in the user document:
`{"n_input_tokens": ..., "n_output_tokens": ...}`
(`database.py`, `update_n_used_tokens`). -/
structure TokenCount where
  n_input_tokens : Nat
  n_output_tokens : Nat
deriving DecidableEq

/-- One typed content block of a stored or prompted user message, a Python dict
such as `{"type": "text", "text": ...}` or `{"type": "image", "image": ...}` or
`{"type": "image_url", "image_url": {...}}`.  The prompt-construction code only
ever reads the keys `"type"` and `"text"` (`openai_utils.py` lines 204-217,
242-266); every other key is collapsed into the opaque `payload` field. -/
structure Block where
  type : Option String
  text : Option String
  payload : Option String
deriving DecidableEq

/-- The dynamic `dialog_message["user"]` field: a plain string, a list of typed
blocks, or (the `else` branch of `_generate_prompt_messages`) any other Python
value, kept only through its `str(...)` image. -/
inductive UserContent where
  | str (s : String)
  | blocks (items : List Block)
  | otherVal (asString : String)
deriving DecidableEq

/-- One Turn of a dialog: `{"user": ..., "bot": ..., "date": ...}` as stored in
`dialog["messages"]` (`bot.py` lines 645-649).  `datetime` values are modelled
as `Nat` timestamps. -/
structure DialogMessage where
  user : UserContent
  bot : String
  date : Nat
deriving DecidableEq

/-- A document of the `user` collection (`database.py`, `add_new_user`).
The `_id` key is the lookup key of the collection and is not repeated here. -/
structure UserDoc where
  chat_id : Int
  username : String
  first_name : String
  last_name : String
  last_interaction : Nat
  first_seen : Nat
  current_dialog_id : Option String
  current_chat_mode : String
  current_model : String
  n_used_tokens : String → Option TokenCount
  n_generated_images : Nat
  n_transcribed_seconds : Rat

/-- A document of the `dialog` collection (`database.py`, `start_new_dialog`).
The `_id` key is the lookup key of the collection and is not repeated here. -/
structure DialogDoc where
  user_id : Int
  chat_mode : String
  start_time : Nat
  model : String
  messages : List DialogMessage

/-- The MongoDB database `chat_gpt_telegram_bot` with its two collections,
modelled as partial maps from document key to document. -/
structure Database where
  users : Int → Option UserDoc
  dialogs : String → Option DialogDoc

/- ===================== database.py ===================== -/

/-- `Database.check_if_user_exists` (`database.py` lines 18-25), the
non-raising variant. -/
def check_if_user_exists (db : Database) (user_id : Int) : Bool :=
  (db.users user_id).isSome

/-- `Database.add_new_user` (`database.py` lines 27-57): builds the fresh user
document and inserts it only when no document with this `_id` exists.
`datetime.now()` is the explicit parameter `now`;
`config.models["available_text_models"][0]` is the parameter `default_model`. -/
def add_new_user (db : Database) (user_id chat_id : Int)
    (username first_name last_name : String) (now : Nat) (default_model : String) :
    Database :=
  let user_dict : UserDoc :=
    { chat_id := chat_id
      username := username
      first_name := first_name
      last_name := last_name
      last_interaction := now
      first_seen := now
      current_dialog_id := none
      current_chat_mode := "assistant"
      current_model := default_model
      n_used_tokens := fun _ => none
      n_generated_images := 0
      n_transcribed_seconds := 0 }
  if check_if_user_exists db user_id then db
  else { db with users := fun u => if u = user_id then some user_dict else db.users u }

/-- `Database.start_new_dialog` (`database.py` lines 59-81): raises (`none`)
when the user is unknown; `uuid.uuid4()` is the explicit parameter
`new_dialog_id` and `datetime.now()` the parameter `now`.  Inserting a dialog
whose `_id` already exists would raise a duplicate-key error in MongoDB, also
modelled as `none`.  The new dialog snapshots the user's current chat mode and
model, has no messages, and becomes the user's `current_dialog_id`. -/
def start_new_dialog (db : Database) (user_id : Int) (new_dialog_id : String)
    (now : Nat) : Option Database :=
  match db.users user_id with
  | none => none
  | some doc =>
    if (db.dialogs new_dialog_id).isSome then none
    else
      let dialog_dict : DialogDoc :=
        { user_id := user_id
          chat_mode := doc.current_chat_mode
          start_time := now
          model := doc.current_model
          messages := [] }
      some
        { users := fun u =>
            if u = user_id then some { doc with current_dialog_id := some new_dialog_id }
            else db.users u
          dialogs := fun d =>
            if d = new_dialog_id then some dialog_dict else db.dialogs d }

/-- `Database.update_n_used_tokens` (`database.py` lines 96-110): additive
merge into the per-model counters of the user's `n_used_tokens` dict, creating
the entry if absent; raises (`none`) when the user is unknown. -/
def update_n_used_tokens (db : Database) (user_id : Int) (model : String)
    (n_input_tokens n_output_tokens : Nat) : Option Database :=
  match db.users user_id with
  | none => none
  | some doc =>
    let updated : String → Option TokenCount := fun m =>
      if m = model then
        match doc.n_used_tokens model with
        | some c =>
          some { n_input_tokens := c.n_input_tokens + n_input_tokens
                 n_output_tokens := c.n_output_tokens + n_output_tokens }
        | none =>
          some { n_input_tokens := n_input_tokens
                 n_output_tokens := n_output_tokens }
      else doc.n_used_tokens m
    some { db with users := fun u =>
      if u = user_id then some { doc with n_used_tokens := updated } else db.users u }

/-- Reads the per-model ledger entry of a user, i.e. the composition of
`get_user_attribute(user_id, "n_used_tokens")` with a dict lookup. -/
def get_n_used_tokens (db : Database) (user_id : Int) (model : String) :
    Option TokenCount :=
  match db.users user_id with
  | none => none
  | some doc => doc.n_used_tokens model

/-- `Database.get_dialog_messages` (`database.py` lines 112-119): raises
(`none`) when the user is unknown, and also when no dialog document matches
`{"_id": dialog_id, "user_id": user_id}` (the code then subscripts `None`,
raising `TypeError`). -/
def get_dialog_messages (db : Database) (user_id : Int) (dialog_id : Option String) :
    Option (List DialogMessage) :=
  match db.users user_id with
  | none => none
  | some doc =>
    match (match dialog_id with | some d => some d | none => doc.current_dialog_id) with
    | none => none
    | some did =>
      match db.dialogs did with
      | none => none
      | some dd => if dd.user_id = user_id then some dd.messages else none

/-- `Database.set_dialog_messages` (`database.py` lines 121-130): raises
(`none`) only when the user is unknown.  `update_one` replaces the `messages`
field of the unique dialog matching `{"_id": dialog_id, "user_id": user_id}`
and is a silent no-op when nothing matches. -/
def set_dialog_messages (db : Database) (user_id : Int)
    (dialog_messages : List DialogMessage) (dialog_id : Option String) :
    Option Database :=
  match db.users user_id with
  | none => none
  | some doc =>
    let did : Option String :=
      match dialog_id with | some d => some d | none => doc.current_dialog_id
    some { db with dialogs := fun d =>
      match db.dialogs d with
      | none => none
      | some dd =>
        if some d = did ∧ dd.user_id = user_id then some { dd with messages := dialog_messages }
        else some dd }

/- ===================== bot.py: split_text_into_chunks ===================== -/

/-- Fuel-indexed core of `split_text_into_chunks`.  With `chunk_size ≥ 1` and
`fuel ≥ cs.length` the fuel never runs out, and the result lists exactly the
Python slices `text[i:i+chunk_size]` for `i in range(0, len(text), chunk_size)`. -/
def split_chunks_go (chunk_size : Nat) : Nat → List Char → List (List Char)
  | _, [] => []
  | 0, _ :: _ => []
  | fuel + 1, c :: cs => ((c :: cs).take chunk_size) ::
      split_chunks_go chunk_size fuel ((c :: cs).drop chunk_size)

/-- `split_text_into_chunks` (`bot.py` lines 91-94): slices the text into
consecutive pieces of `chunk_size` characters (Python slicing is by code
points, as is `List Char`).  Python's `range` raises `ValueError` for step 0;
that case never arises under the theorems' hypotheses. -/
def split_text_into_chunks (text : String) (chunk_size : Nat) : List String :=
  (split_chunks_go chunk_size text.data.length text.data).map (fun l => String.mk l)

/- ===================== openai_utils.py: prompt construction ===================== -/

/-- Message roles of the OpenAI chat API. -/
inductive Role where
  | system | user | assistant
deriving DecidableEq

/-- One element of the `messages` list passed to the OpenAI client: a dict
`{"role": ..., "content": ...}` whose content is a string or a block list. -/
structure PromptMsg where
  role : Role
  content : UserContent
deriving DecidableEq

/-- The scan of `_generate_prompt_messages` over a stored block list
(`openai_utils.py` lines 207-212): starting from `""`, take
`item.get("text", "")` of the first item with `item.get("type") == "text"`. -/
def first_text_content : List Block → String
  | [] => ""
  | b :: bs => if b.type = some "text" then b.text.getD "" else first_text_content bs

/-- The user-content extraction of `_generate_prompt_messages`
(`openai_utils.py` lines 204-214): a stored string is used as is, a stored
block list is reduced to its first text block, anything else to its `str(...)`
image. -/
def dialog_user_content : UserContent → String
  | .str s => s
  | .blocks items => first_text_content items
  | .otherVal r => r

/-- The two prompt messages contributed by one historical Turn
(`openai_utils.py` lines 216-217). -/
def prompt_pair (dm : DialogMessage) : List PromptMsg :=
  [{ role := .user, content := .str (dialog_user_content dm.user) },
   { role := .assistant, content := .str dm.bot }]

/-- `ChatGPT._generate_prompt_messages` (`openai_utils.py` lines 200-236):
system prompt of the chat mode, then one (user, assistant) pair per historical
Turn, then the new input - as plain text, or as a text block plus one
`image_url` block when an image buffer is present.  `prompt_start` is
`config.chat_modes[chat_mode]["prompt_start"]`; the base64 image data URL is
the explicit parameter carried by `image`. -/
def _generate_prompt_messages (message : String) (dialog_messages : List DialogMessage)
    (prompt_start : String) (image : Option String) : List PromptMsg :=
  { role := .system, content := .str prompt_start } ::
    dialog_messages.flatMap prompt_pair ++
    [match image with
     | some img =>
       { role := .user
         content := .blocks
           [{ type := some "text", text := some message, payload := none },
            { type := some "image_url", text := none, payload := some img }] }
     | none => { role := .user, content := .str message }]

/- ===================== openai_utils.py: completion client ===================== -/

/-- The whole-response result of one remote call
(`response.choices[0].message.content` and `response.usage`). -/
structure RemoteAnswer where
  content : String
  prompt_tokens : Nat
  completion_tokens : Nat
deriving DecidableEq

/-- `ChatGPT._postprocess_answer` (`openai_utils.py` lines 238-240):
`answer.strip()`. -/
def _postprocess_answer (answer : String) : String := answer.trim

/-- The `while answer is None` retry loop shared by `send_message` and
`send_message_stream` (`openai_utils.py` lines 43-66 and 77-107): `attempt`
runs one remote call on the current history and returns `none` exactly on a
context-length-exceeded failure.  On such a failure with a non-empty history
the oldest Turn is dropped and the loop retries; with an empty history the
exception is fatal (`raise`), modelled as `none`. -/
def completion_retry_loop {α : Type} (attempt : List DialogMessage → Option α) :
    List DialogMessage → Option (α × List DialogMessage)
  | [] =>
    match attempt [] with
    | some a => some (a, [])
    | none => none
  | d :: rest =>
    match attempt (d :: rest) with
    | some a => some (a, d :: rest)
    | none => completion_retry_loop attempt rest

/-- The sequence of dialog histories on which the retry loop actually calls the
remote model, in order: the original history, then each suffix obtained by
dropping the oldest Turn, ending with the first accepted history (or with the
empty history whose rejection is fatal). -/
def attempt_histories {α : Type} (attempt : List DialogMessage → Option α) :
    List DialogMessage → List (List DialogMessage)
  | [] => [[]]
  | d :: rest =>
    match attempt (d :: rest) with
    | some _ => [d :: rest]
    | none => (d :: rest) :: attempt_histories attempt rest

/-- `ChatGPT.send_message` (`openai_utils.py` lines 36-68).  `remote` is the
OpenAI client: `none` models a context-length-exceeded failure of
`client.chat.completions.create` (any other exception aborts the call
unchanged and is outside the claims).  `chat_mode_ok` is the membership test
`chat_mode in config.chat_modes.keys()`; `prompt_start` is the chat mode's
system prompt.  Besides the answer, the token usage and
`n_first_dialog_messages_removed`, the model also returns the final retained
history (the loop's state on success) so that specifications can speak about
it. -/
def send_message (chat_mode_ok : Bool) (remote : List PromptMsg → Option RemoteAnswer)
    (message prompt_start : String) (dialog_messages : List DialogMessage) :
    Option (String × (Nat × Nat) × List DialogMessage × Nat) :=
  if chat_mode_ok = false then none
  else
    (completion_retry_loop
        (fun h => remote (_generate_prompt_messages message h prompt_start none))
        dialog_messages).map
      (fun p =>
        (_postprocess_answer p.1.content, (p.1.prompt_tokens, p.1.completion_tokens),
         p.2, dialog_messages.length - p.2.length))

/-- Token count of one prompt message's content in
`ChatGPT._count_tokens_from_messages` (`openai_utils.py` lines 252-261):
strings are encoded with the tokenizer, text blocks likewise, `image_url`
blocks cost a flat 85 tokens.  The `otherVal` branch never occurs in a
generated prompt; it is counted like the string it carries. -/
def content_tokens (encode : String → Nat) : UserContent → Nat
  | .str s => encode s
  | .blocks items =>
    items.foldl
      (fun acc b =>
        if b.type = some "text" then acc + encode (b.text.getD "")
        else if b.type = some "image_url" then acc + 85
        else acc) 0
  | .otherVal r => encode r

/-- `ChatGPT._count_tokens_from_messages` (`openai_utils.py` lines 242-266):
3 tokens per message plus the content tokens, plus 2; the output estimate is
1 plus the encoded answer.  `encode` is `tiktoken`'s `encoding.encode ∘ len`,
an external collaborator. -/
def _count_tokens_from_messages (encode : String → Nat) (messages : List PromptMsg)
    (answer : String) : Nat × Nat :=
  (messages.foldl (fun acc m => acc + 3 + content_tokens encode m.content) 0 + 2,
   1 + encode answer)

/-- Status tag of the tuples yielded by `send_message_stream`. -/
inductive GenStatus where
  | not_finished | finished
deriving DecidableEq

/-- One tuple yielded by `send_message_stream` (`openai_utils.py` lines 96 and
110): `(status, answer, (n_input_tokens, n_output_tokens),
n_first_dialog_messages_removed)`. -/
structure GenTuple where
  status : GenStatus
  answer : String
  n_input_tokens : Nat
  n_output_tokens : Nat
  n_removed : Nat
deriving DecidableEq

/-- The successive values of `answer` inside the streaming loop: the running
concatenations of the non-empty deltas (`openai_utils.py` lines 88-91). -/
def cumulative_answers : String → List String → List String
  | _, [] => []
  | acc, d :: ds => (acc ++ d) :: cumulative_answers (acc ++ d) ds

/-- The tuples yielded for one successful streaming attempt: one
`not_finished` tuple per non-empty delta, carrying locally estimated token
counts and `n_first_dialog_messages_removed = 0` (line 95), then exactly one
`finished` tuple with the stripped final answer, the last estimate and the
true number of removed Turns (line 110). -/
def stream_tuples (encode : String → Nat) (messages : List PromptMsg)
    (contents : List String) (n_removed : Nat) : List GenTuple :=
  let answer := String.join contents
  (cumulative_answers "" contents).map
    (fun a =>
      { status := .not_finished
        answer := a
        n_input_tokens := (_count_tokens_from_messages encode messages a).1
        n_output_tokens := (_count_tokens_from_messages encode messages a).2
        n_removed := 0 }) ++
  [{ status := .finished
     answer := _postprocess_answer answer
     n_input_tokens := (_count_tokens_from_messages encode messages answer).1
     n_output_tokens := (_count_tokens_from_messages encode messages answer).2
     n_removed := n_removed }]

/-- `ChatGPT.send_message_stream` (`openai_utils.py` lines 70-110).
`remote_stream` returns the delta contents of the response stream, or `none`
on a context-length-exceeded failure; the retry loop is the same as in
`send_message`.  Empty deltas are skipped (`if chunk.choices[0].delta.content:`).
A stream that delivers no non-empty delta leaves `n_input_tokens` unbound and
the final yield raises `NameError`; that crash is modelled as `none`.  The
result is the full yielded tuple sequence. -/
def send_message_stream (chat_mode_ok : Bool) (encode : String → Nat)
    (remote_stream : List PromptMsg → Option (List String))
    (message prompt_start : String) (dialog_messages : List DialogMessage) :
    Option (List GenTuple) :=
  if chat_mode_ok = false then none
  else
    match completion_retry_loop
        (fun h => remote_stream (_generate_prompt_messages message h prompt_start none))
        dialog_messages with
    | none => none
    | some (deltas, finalHistory) =>
      match deltas.filter (fun d => d ≠ "") with
      | [] => none
      | c :: cs =>
        some (stream_tuples encode
          (_generate_prompt_messages message finalHistory prompt_start none)
          (c :: cs) (dialog_messages.length - finalHistory.length))

/- ===================== bot.py: stream presenter ===================== -/

/-- `answer[:4096]` (`bot.py` line 619): the first 4096 code points. -/
def telegram_truncate (s : String) : String := String.mk (s.data.take 4096)

/-- The consumer loop of `message_handle_fn` (`bot.py` lines 614-642), reduced
to its delivery decisions: starting from `prev_answer = ""`, each tuple's
answer is truncated to 4096 characters; the edit is skipped when the length
delta against the previously pushed answer is under 100 characters and the
tuple is not the terminal one, otherwise the edit is issued and the pushed
answer becomes the new reference.  Transport errors on individual edits are
external and assumed absent.  The result is the ordered list of texts pushed
to the UI. -/
def stream_presenter_pushes : String → List GenTuple → List String
  | _, [] => []
  | prev, t :: ts =>
    let ans := telegram_truncate t.answer
    if ((ans.data.length : Int) - (prev.data.length : Int)).natAbs < 100 ∧
        t.status ≠ .finished then
      stream_presenter_pushes prev ts
    else ans :: stream_presenter_pushes ans ts

/- ===================== bot.py: request admission (per-user serialization) ===================== -/

/-!
Admission model.  `bot.py` keeps the process-wide registries
`user_semaphores` (user id → `asyncio.Semaphore(1)`) and `user_tasks`
(user id → in-flight task).  A generation request for one fixed user runs:

1. `is_previous_message_not_answered_yet` (lines 182-192): if
   `user_semaphores[user_id].locked()` then reply "please wait" and abort;
2. otherwise `message_handle` acquires the semaphore
   (`async with user_semaphores[user_id]`, line 677), spawns the generation
   task and registers it in `user_tasks`;
3. on completion of the task the `async with` block exits and the semaphore is
   released (lines 692-698).

asyncio schedules these handler tasks cooperatively on one thread: control
changes hands only at suspension points.  For an already-registered user no
statement between the `locked()` check (1) and the semaphore acquisition (2)
suspends (the database client is synchronous, and the uncontended
`Semaphore.acquire` returns without yielding), so check-plus-acquire is one
atomic step; the generation work and the release happen strictly later.  A
task of this model therefore takes two atomic steps: `ready` (check, and
either reject or acquire) and, for the acquirer, `working` (generate, release
and finish).
-/

/-- Control state of one request task. -/
inductive TaskPC where
  | ready | working | done | rejected
deriving DecidableEq, Fintype

/-- Shared state of two concurrent requests of the same user: the per-user
semaphore's lock bit and both tasks' control states. -/
structure AdmState where
  lock : Bool
  pc0 : TaskPC
  pc1 : TaskPC
deriving DecidableEq, Fintype

/-- One atomic step of a single task against the lock: the `ready` step is the
`locked()` check followed, when free, by the semaphore acquisition; the
`working` step is the generation followed by the semaphore release.  Terminal
states do not move. -/
def admStepTask : Bool → TaskPC → Bool × TaskPC
  | lock, .ready => if lock then (lock, .rejected) else (true, .working)
  | _, .working => (false, .done)
  | lock, .done => (lock, .done)
  | lock, .rejected => (lock, .rejected)

/-- The scheduler lets task `i` (`false` = task 0, `true` = task 1) take its
next atomic step. -/
def admStep (s : AdmState) (i : Bool) : AdmState :=
  if i then { lock := (admStepTask s.lock s.pc1).1, pc0 := s.pc0, pc1 := (admStepTask s.lock s.pc1).2 }
  else { lock := (admStepTask s.lock s.pc0).1, pc0 := (admStepTask s.lock s.pc0).2, pc1 := s.pc1 }

/-- Run a whole schedule (an arbitrary interleaving of the two tasks). -/
def admRun (sched : List Bool) (s : AdmState) : AdmState :=
  sched.foldl admStep s

/-- Initial state: semaphore free, both requests pending. -/
def admInit : AdmState := { lock := false, pc0 := .ready, pc1 := .ready }

/-- A task counts as accepted once it has acquired the semaphore and spawned
its generation task (still `working`, or already `done`). -/
def isAccepted : TaskPC → Bool
  | .working => true
  | .done => true
  | _ => false

/-- Number of accepted (spawned) generation tasks. -/
def acceptedCount (s : AdmState) : Nat :=
  (if isAccepted s.pc0 then 1 else 0) + (if isAccepted s.pc1 then 1 else 0)

/-- Number of `Busy` rejections ("please wait" replies). -/
def busyCount (s : AdmState) : Nat :=
  (if s.pc0 = .rejected then 1 else 0) + (if s.pc1 = .rejected then 1 else 0)

/-- Both requests have run to completion (either finished or rejected). -/
def bothTerminal (s : AdmState) : Bool :=
  (s.pc0 == .done || s.pc0 == .rejected) && (s.pc1 == .done || s.pc1 == .rejected)

/-- The step about to be scheduled respects the claim's scenario "the second
request is issued before the first completes": no request performs its
admission check after the other request has already fully completed. -/
def overlapOK (s : AdmState) (i : Bool) : Bool :=
  if i then !((s.pc1 == .ready) && (s.pc0 == .done))
  else !((s.pc0 == .ready) && (s.pc1 == .done))

/-- `overlapOK` holds at every step of the schedule. -/
def schedOverlapOK : AdmState → List Bool → Bool
  | _, [] => true
  | s, i :: rest => overlapOK s i && schedOverlapOK (admStep s i) rest

/-- Mutual-exclusion invariant: the semaphore is locked exactly while some
task is working, and never are both tasks working. -/
def admInv (s : AdmState) : Bool :=
  (s.lock == ((s.pc0 == .working) || (s.pc1 == .working))) &&
  !((s.pc0 == .working) && (s.pc1 == .working))

/-- Strengthened invariant for overlapping schedules: additionally, once one
task is done the other is neither working nor done, and the two tasks are
never both rejected. -/
def admInv2 (s : AdmState) : Bool :=
  admInv s &&
  !((s.pc0 == .done) && (s.pc1 == .done)) &&
  !((s.pc0 == .done) && (s.pc1 == .working)) &&
  !((s.pc0 == .working) && (s.pc1 == .done)) &&
  !((s.pc0 == .rejected) && (s.pc1 == .rejected))

/- ===================== bot.py: generation handler effects (cancellation) ===================== -/

/-- Outcome of one spawned generation task (`message_handle_fn`, `bot.py`
lines 567-675): normal completion with the final answer and the remote usage,
cooperative cancellation observed after having accrued the given token
estimates, or any other exception. -/
inductive HandlerOutcome where
  | success (answer : String) (n_input n_output : Nat)
  | cancelled (n_input n_output : Nat)
  | failure
deriving DecidableEq

/-- The externally visible events of `message_handle` /
`message_handle_fn` in execution order. -/
inductive BotEvent where
  | registerTask
  | saveDialog (userMessage answer : String) (date : Nat)
  | recordUsage (n_input n_output : Nat)
  | raiseCancelled
  | replyCancelled
  | replyError
  | clearTask
deriving DecidableEq

/-- The event trace of `message_handle_fn` (`bot.py` lines 644-667) by
outcome: on success it appends the new Turn to the current dialog and records
the usage; on `asyncio.CancelledError` it records the usage accrued so far and
re-raises; on any other exception it replies with a generic error message and
returns (no usage is recorded). -/
def message_handle_fn_events (userMessage : String) (date : Nat) :
    HandlerOutcome → List BotEvent
  | .success answer nIn nOut => [.saveDialog userMessage answer date, .recordUsage nIn nOut]
  | .cancelled nIn nOut => [.recordUsage nIn nOut, .raiseCancelled]
  | .failure => [.replyError]

/-- The event trace of `message_handle` around the spawned task (`bot.py`
lines 677-698): register the task in `user_tasks`, await it, catch a
propagating `asyncio.CancelledError` with a "cancelled" reply, and in all
cases remove the `user_tasks` entry in the `finally` block. -/
def message_handle_events (userMessage : String) (date : Nat)
    (o : HandlerOutcome) : List BotEvent :=
  .registerTask :: message_handle_fn_events userMessage date o ++
    (match o with
     | .cancelled _ _ => [.replyCancelled]
     | _ => []) ++ [.clearTask]

/-- Process state affected by the handler: the database and the per-user
`user_tasks` slot (`true` iff an in-flight task is registered). -/
structure HandlerState where
  db : Database
  inFlight : Bool

/-- Effect of one event on the handler state.  `saveDialog` is the
read-modify-write `set_dialog_messages(get_dialog_messages() + [new])` of
`bot.py` lines 645-655 storing the user message as a single text block;
`recordUsage` is `update_n_used_tokens`; the reply and raise events do not
change this state.  A database error (`none`) aborts the run. -/
def applyBotEvent (user_id : Int) (model : String) (s : HandlerState) :
    BotEvent → Option HandlerState
  | .registerTask => some { s with inFlight := true }
  | .clearTask => some { s with inFlight := false }
  | .saveDialog m a d =>
    match get_dialog_messages s.db user_id none with
    | none => none
    | some msgs =>
      (set_dialog_messages s.db user_id
          (msgs ++ [{ user := .blocks [{ type := some "text", text := some m, payload := none }],
                      bot := a, date := d }]) none).map
        (fun db2 => { s with db := db2 })
  | .recordUsage nIn nOut =>
    (update_n_used_tokens s.db user_id model nIn nOut).map (fun db2 => { s with db := db2 })
  | .raiseCancelled => some s
  | .replyCancelled => some s
  | .replyError => some s

/-- Run an event trace over the handler state. -/
def runHandlerEvents (user_id : Int) (model : String) (evs : List BotEvent)
    (s : HandlerState) : Option HandlerState :=
  evs.foldlM (applyBotEvent user_id model) s

/-- The additive merge performed on one ledger entry. -/
def merged_token_count : Option TokenCount → Nat → Nat → TokenCount
  | some c, nIn, nOut =>
    { n_input_tokens := c.n_input_tokens + nIn, n_output_tokens := c.n_output_tokens + nOut }
  | none, nIn, nOut => { n_input_tokens := nIn, n_output_tokens := nOut }

/- ===================== Concrete fixtures used by the witnesses ===================== -/

/-- A registered user document (user id 1, current dialog `"d0"`). -/
def docW : UserDoc :=
  { chat_id := 5
    username := "u"
    first_name := "f"
    last_name := "l"
    last_interaction := 0
    first_seen := 0
    current_dialog_id := some "d0"
    current_chat_mode := "assistant"
    current_model := "gpt-4o-mini"
    n_used_tokens := fun _ => none
    n_generated_images := 0
    n_transcribed_seconds := 0 }

/-- The dialog document `"d0"` owned by user 1. -/
def ddW : DialogDoc :=
  { user_id := 1
    chat_mode := "assistant"
    start_time := 0
    model := "gpt-4o-mini"
    messages := [] }

/-- A database with the single registered user 1 and its dialog `"d0"`. -/
def dbW : Database :=
  { users := fun u => if u = 1 then some docW else none
    dialogs := fun d => if d = "d0" then some ddW else none }

/-- A remote model that accepts prompts of at most 4 messages, i.e. histories
of at most 1 Turn (a prompt holds the system message, two messages per Turn,
and the new input). -/
def remoteW : List PromptMsg → Option RemoteAnswer := fun msgs =>
  if msgs.length ≤ 4 then
    some { content := " ok ", prompt_tokens := 7, completion_tokens := 8 }
  else none

/-- A simple stored Turn. -/
def dmW (n : Nat) : DialogMessage := { user := .str "hi", bot := "there", date := n }

/-- A stored Turn whose user content is a typed-block list with a leading
non-text block and a first text block carrying `"hello"`. -/
def dmBlocksW : DialogMessage :=
  { user := .blocks
      [{ type := some "image", text := none, payload := some "xyz" },
       { type := some "text", text := some "hello", payload := none },
       { type := some "text", text := some "later", payload := none }]
    bot := "reply"
    date := 0 }

/-- A short non-terminal stream tuple (2 characters). -/
def tupShortW : GenTuple :=
  { status := .not_finished, answer := "hi", n_input_tokens := 0, n_output_tokens := 0, n_removed := 0 }

/-- A long non-terminal stream tuple (150 characters). -/
def tupLongW : GenTuple :=
  { status := .not_finished, answer := String.mk (List.replicate 150 'a'),
    n_input_tokens := 0, n_output_tokens := 0, n_removed := 0 }

/-- The terminal stream tuple. -/
def tupFinW : GenTuple :=
  { status := .finished, answer := "bye", n_input_tokens := 0, n_output_tokens := 0, n_removed := 0 }

/-- A 9000-character answer text. -/
def textW : String := String.mk (List.replicate 9000 'a')

/- ===================== Theorems ===================== -/

/-- Every chunk produced by `split_chunks_go` has at most `chunk_size`
characters. -/
theorem split_chunks_go_length_le (k : Nat) :
    ∀ (fuel : Nat) (cs : List Char), ∀ l ∈ split_chunks_go k fuel cs, l.length ≤ k := by
  intro fuel
  induction fuel with
  | zero =>
    intro cs l hl
    cases cs <;> simp [split_chunks_go] at hl
  | succ n ih =>
    intro cs l hl
    cases cs with
    | nil => simp [split_chunks_go] at hl
    | cons c cs =>
      simp only [split_chunks_go, List.mem_cons] at hl
      rcases hl with h | h
      · subst h
        exact List.length_take_le k (c :: cs)
      · exact ih _ _ h

/-- With positive chunk size and enough fuel, flattening the chunks of
`split_chunks_go` gives back the original character list. -/
theorem split_chunks_go_flatten (k : Nat) (hk : 0 < k) :
    ∀ (fuel : Nat) (cs : List Char), cs.length ≤ fuel →
      (split_chunks_go k fuel cs).flatten = cs := by
  intro fuel
  induction fuel with
  | zero =>
    intro cs h
    have : cs = [] := List.length_eq_zero.mp (Nat.le_zero.mp h)
    subst this
    simp [split_chunks_go]
  | succ n ih =>
    intro cs h
    cases cs with
    | nil => simp [split_chunks_go]
    | cons c cs =>
      simp only [split_chunks_go, List.flatten_cons]
      rw [ih]
      · exact List.take_append_drop k (c :: cs)
      · simp only [List.length_drop, List.length_cons] at *
        omega

/-- Folding string concatenation over a list of `String.mk`s concatenates the
underlying character lists. -/
theorem foldl_append_map_mk (ls : List (List Char)) :
    ∀ init : String, (ls.map String.mk).foldl (· ++ ·) init = String.mk (init.data ++ ls.flatten) := by
  induction ls with
  | nil => intro init; simp
  | cons a ls ih =>
    intro init
    simp only [List.map_cons, List.foldl_cons, List.flatten_cons, ih]
    rw [String.data_append]
    simp

/-- `String.join` over mapped `String.mk`s is `String.mk` of the flattened
character lists. -/
theorem string_join_map_mk (ls : List (List Char)) :
    String.join (ls.map String.mk) = String.mk ls.flatten := by
  show (ls.map String.mk).foldl (· ++ ·) "" = String.mk ls.flatten
  rw [foldl_append_map_mk]
  rfl

/-- C6: for every final answer text longer than the (positive) chunk limit,
`split_text_into_chunks` produces a finite ordered sequence of chunks, each of
at most `chunk_size` characters, whose in-order concatenation reconstructs the
original text exactly (this splitter inserts no boundary whitespace). -/
theorem split_text_into_chunks_spec (text : String) (chunk_size : Nat)
    (hk : 0 < chunk_size) (_hlen : chunk_size < text.length) :
    (∀ chunk ∈ split_text_into_chunks text chunk_size, chunk.length ≤ chunk_size) ∧
    String.join (split_text_into_chunks text chunk_size) = text := by
  constructor
  · intro chunk hc
    rcases List.mem_map.mp hc with ⟨l, hl, rfl⟩
    exact split_chunks_go_length_le chunk_size _ _ l hl
  · show String.join ((split_chunks_go chunk_size text.data.length text.data).map String.mk) = text
    rw [string_join_map_mk, split_chunks_go_flatten chunk_size hk _ _ (Nat.le_refl _)]

/-- C6 witness: the claim's example, a 9000-character text with a
2500-character limit. -/
theorem split_text_into_chunks_spec_witness :
    (∀ chunk ∈ split_text_into_chunks textW 2500, chunk.length ≤ 2500) ∧
    String.join (split_text_into_chunks textW 2500) = textW :=
  split_text_into_chunks_spec textW 2500 (by decide)
    (by
      have h : textW.length = (List.replicate 9000 'a').length := rfl
      rw [h, List.length_replicate]
      omega)

/-- A generated prompt holds the system message, two messages per historical
Turn, and the new input. -/
theorem gen_prompt_length (message prompt_start : String) (img : Option String) :
    ∀ dms : List DialogMessage,
      (_generate_prompt_messages message dms prompt_start img).length = 2 * dms.length + 2 := by
  intro dms
  induction dms with
  | nil => cases img <;> rfl
  | cons d rest ih =>
    simp only [_generate_prompt_messages, List.flatMap_cons, prompt_pair, List.length_cons,
      List.length_append, List.cons_append, List.length_nil] at *
    omega

/-- The retry loop against a remote that accepts exactly the histories of at
most `k` Turns: the loop succeeds on the history with the oldest
`length - k` Turns dropped. -/
theorem completion_retry_loop_k {α : Type} (attempt : List DialogMessage → Option α) (k : Nat)
    (hacc : ∀ h : List DialogMessage, (attempt h).isSome ↔ h.length ≤ k) :
    ∀ dms : List DialogMessage, k ≤ dms.length →
      ∃ a, attempt (dms.drop (dms.length - k)) = some a ∧
        completion_retry_loop attempt dms = some (a, dms.drop (dms.length - k)) := by
  intro dms
  induction dms with
  | nil =>
    intro h
    have hk : k = 0 := Nat.le_zero.mp h
    subst hk
    rcases Option.isSome_iff_exists.mp ((hacc []).mpr (by simp)) with ⟨a, ha⟩
    exact ⟨a, by simpa using ha, by simp [completion_retry_loop, ha]⟩
  | cons d rest ih =>
    intro _h
    by_cases hlen : (d :: rest).length ≤ k
    · have h0 : (d :: rest).length - k = 0 := Nat.sub_eq_zero_of_le hlen
      rcases Option.isSome_iff_exists.mp ((hacc _).mpr hlen) with ⟨a, ha⟩
      refine ⟨a, ?_, ?_⟩
      · rw [h0]; simpa using ha
      · rw [h0]; simp [completion_retry_loop, ha]
    · have hnone : attempt (d :: rest) = none := by
        rcases h' : attempt (d :: rest) with _ | a
        · rfl
        · exact absurd ((hacc _).mp (by simp [h'])) hlen
      have hk' : k ≤ rest.length := by
        simp only [List.length_cons] at hlen
        omega
      rcases ih hk' with ⟨a, ha1, ha2⟩
      have hdrop : (d :: rest).drop ((d :: rest).length - k) = rest.drop (rest.length - k) := by
        have : (d :: rest).length - k = (rest.length - k) + 1 := by
          simp only [List.length_cons]
          omega
        rw [this, List.drop_succ_cons]
      refine ⟨a, ?_, ?_⟩
      · rw [hdrop]; exact ha1
      · rw [show completion_retry_loop attempt (d :: rest) = completion_retry_loop attempt rest
              from by simp [completion_retry_loop, hnone],
            ha2, hdrop]

/-- Against the same remote, the histories actually attempted are the
original history followed by the suffixes obtained by dropping 1, 2, ...,
`length - k` oldest Turns, in order: trimming is oldest-first and the retained
suffix shrinks monotonically across retries. -/
theorem attempt_histories_k {α : Type} (attempt : List DialogMessage → Option α) (k : Nat)
    (hacc : ∀ h : List DialogMessage, (attempt h).isSome ↔ h.length ≤ k) :
    ∀ dms : List DialogMessage, k ≤ dms.length →
      attempt_histories attempt dms =
        (List.range (dms.length - k + 1)).map (fun i => dms.drop i) := by
  intro dms
  induction dms with
  | nil => intro h; simp [attempt_histories]
  | cons d rest ih =>
    intro _h
    by_cases hlen : (d :: rest).length ≤ k
    · have h0 : (d :: rest).length - k = 0 := Nat.sub_eq_zero_of_le hlen
      rcases Option.isSome_iff_exists.mp ((hacc _).mpr hlen) with ⟨a, ha⟩
      rw [h0]
      simp [attempt_histories, ha, List.range_succ]
    · have hnone : attempt (d :: rest) = none := by
        rcases h' : attempt (d :: rest) with _ | a
        · rfl
        · exact absurd ((hacc _).mp (by simp [h'])) hlen
      have hk' : k ≤ rest.length := by
        simp only [List.length_cons] at hlen
        omega
      have hsucc : (d :: rest).length - k = (rest.length - k) + 1 := by
        simp only [List.length_cons]
        omega
      rw [show attempt_histories attempt (d :: rest) = (d :: rest) :: attempt_histories attempt rest
            from by simp [attempt_histories, hnone],
          ih hk', hsucc]
      conv_rhs => rw [List.range_succ_eq_map]
      simp [List.map_map, Function.comp_def, List.drop_succ_cons]

/-- C1: for a dialog history and a remote model that rejects with a
context-length-exceeded failure exactly until the history holds at most
`k ≥ 1` Turns, `send_message` terminates successfully with exactly the last
`k` Turns retained in the prompt, returns
`n_first_dialog_messages_removed = length - k`, and the attempted histories
shrink monotonically by dropping the oldest Turn first. -/
theorem chatgpt_send_message_trims_oldest_first
    (remote : List PromptMsg → Option RemoteAnswer) (message prompt_start : String)
    (k : Nat) (dms : List DialogMessage)
    (_hk : 1 ≤ k) (hlen : k ≤ dms.length)
    (hremote : ∀ h : List DialogMessage,
      (remote (_generate_prompt_messages message h prompt_start none)).isSome ↔ h.length ≤ k) :
    (∃ r : RemoteAnswer,
        remote (_generate_prompt_messages message (dms.drop (dms.length - k)) prompt_start none) =
          some r ∧
        send_message true remote message prompt_start dms =
          some (_postprocess_answer r.content, (r.prompt_tokens, r.completion_tokens),
                dms.drop (dms.length - k), dms.length - k)) ∧
    attempt_histories (fun h => remote (_generate_prompt_messages message h prompt_start none)) dms =
      (List.range (dms.length - k + 1)).map (fun i => dms.drop i) := by
  rcases completion_retry_loop_k
      (fun h => remote (_generate_prompt_messages message h prompt_start none)) k hremote dms hlen
    with ⟨r, hr1, hr2⟩
  refine ⟨⟨r, hr1, ?_⟩, attempt_histories_k _ k hremote dms hlen⟩
  have hdl : (dms.drop (dms.length - k)).length = k := by
    rw [List.length_drop]
    omega
  unfold send_message
  rw [if_neg (by simp), hr2]
  simp only [Option.map_some']
  rw [hdl]

/-- C1 witness: a two-Turn history against a remote that accepts only prompts
of at most one Turn (`remoteW`): the call retains exactly the last Turn,
reports one removed Turn, and attempts the histories `[t0, t1]` then `[t1]`. -/
theorem chatgpt_send_message_trims_oldest_first_witness :
    (∃ r : RemoteAnswer,
        remoteW (_generate_prompt_messages "m"
            ([dmW 0, dmW 1].drop ([dmW 0, dmW 1].length - 1)) "p" none) = some r ∧
        send_message true remoteW "m" "p" [dmW 0, dmW 1] =
          some (_postprocess_answer r.content, (r.prompt_tokens, r.completion_tokens),
                [dmW 0, dmW 1].drop ([dmW 0, dmW 1].length - 1), [dmW 0, dmW 1].length - 1)) ∧
    attempt_histories (fun h => remoteW (_generate_prompt_messages "m" h "p" none))
        [dmW 0, dmW 1] =
      (List.range ([dmW 0, dmW 1].length - 1 + 1)).map (fun i => [dmW 0, dmW 1].drop i) :=
  chatgpt_send_message_trims_oldest_first remoteW "m" "p" 1 [dmW 0, dmW 1]
    (by decide) (by decide)
    (by
      intro h
      simp only [remoteW, gen_prompt_length]
      split <;> simp <;> omega)

/-- C4: in both whole-response and streaming modes, when the history is
already empty and the remote still rejects with a context-length-exceeded
failure, the call fails fatally (the exception propagates) and no further
trimming iteration occurs: the empty history is the one and only attempt. -/
theorem empty_history_context_error_is_fatal
    (remote : List PromptMsg → Option RemoteAnswer)
    (remote_stream : List PromptMsg → Option (List String))
    (encode : String → Nat) (message prompt_start : String)
    (hr : remote (_generate_prompt_messages message [] prompt_start none) = none)
    (hs : remote_stream (_generate_prompt_messages message [] prompt_start none) = none) :
    send_message true remote message prompt_start [] = none ∧
    send_message_stream true encode remote_stream message prompt_start [] = none ∧
    attempt_histories (fun h => remote (_generate_prompt_messages message h prompt_start none))
        [] = [[]] ∧
    attempt_histories
        (fun h => remote_stream (_generate_prompt_messages message h prompt_start none)) [] =
      [[]] := by
  refine ⟨?_, ?_, rfl, rfl⟩
  · simp [send_message, completion_retry_loop, hr]
  · simp [send_message_stream, completion_retry_loop, hs]

/-- C4 witness: a remote rejecting every prompt, called on the empty history,
in both modes. -/
theorem empty_history_context_error_is_fatal_witness :
    send_message true (fun _ => none) "m" "p" [] = none ∧
    send_message_stream true (fun _ => 0) (fun _ => none) "m" "p" [] = none ∧
    attempt_histories
        (fun h => (fun _ => (none : Option RemoteAnswer))
          (_generate_prompt_messages "m" h "p" none)) [] = [[]] ∧
    attempt_histories
        (fun h => (fun _ => (none : Option (List String)))
          (_generate_prompt_messages "m" h "p" none)) [] = [[]] :=
  empty_history_context_error_is_fatal (fun _ => none) (fun _ => none) (fun _ => 0)
    "m" "p" rfl rfl

/-- C5: delivery decisions of the presenter loop.  A non-terminal tuple whose
(truncated) answer length differs from the previously pushed answer's length
by fewer than 100 characters produces no UI edit; a non-terminal tuple whose
length delta reaches 100 produces an edit; the terminal (`finished`) tuple
always produces an edit regardless of the delta. -/
theorem stream_presenter_threshold (prev : String) (t : GenTuple) (ts : List GenTuple) :
    (t.status ≠ .finished →
      (((telegram_truncate t.answer).length : Int) - (prev.length : Int)).natAbs < 100 →
      stream_presenter_pushes prev (t :: ts) = stream_presenter_pushes prev ts) ∧
    (t.status ≠ .finished →
      ¬(((telegram_truncate t.answer).length : Int) - (prev.length : Int)).natAbs < 100 →
      stream_presenter_pushes prev (t :: ts) =
        telegram_truncate t.answer :: stream_presenter_pushes (telegram_truncate t.answer) ts) ∧
    (t.status = .finished →
      stream_presenter_pushes prev (t :: ts) =
        telegram_truncate t.answer :: stream_presenter_pushes (telegram_truncate t.answer) ts) := by
  refine ⟨?_, ?_, ?_⟩
  · intro hst hdelta
    simp [stream_presenter_pushes, hdelta, hst]
  · intro hst hdelta
    simp [stream_presenter_pushes, hdelta]
  · intro hst
    simp [stream_presenter_pushes, hst]

/-- C5 witness: from the empty placeholder, a 2-character non-terminal tuple
is suppressed, a 150-character non-terminal tuple is pushed, and the short
terminal tuple is pushed although its delta is under 100. -/
theorem stream_presenter_threshold_witness :
    stream_presenter_pushes "" [tupShortW, tupLongW, tupFinW] =
      [telegram_truncate tupLongW.answer, telegram_truncate tupFinW.answer] := by
  have h1 : stream_presenter_pushes "" [tupShortW, tupLongW, tupFinW] =
      stream_presenter_pushes "" [tupLongW, tupFinW] :=
    (stream_presenter_threshold "" tupShortW [tupLongW, tupFinW]).1 (by decide) (by decide)
  have h2 : stream_presenter_pushes "" [tupLongW, tupFinW] =
      telegram_truncate tupLongW.answer ::
        stream_presenter_pushes (telegram_truncate tupLongW.answer) [tupFinW] :=
    (stream_presenter_threshold "" tupLongW [tupFinW]).2.1 (by decide)
      (by
        show ¬(((telegram_truncate tupLongW.answer).length : Int) - _).natAbs < 100
        have ha : (telegram_truncate tupLongW.answer).length = 150 := by
          show ((String.mk (List.replicate 150 'a')).data.take 4096).length = 150
          rw [List.length_take, List.length_replicate]
          decide
        rw [ha]
        decide)
  have h3 : stream_presenter_pushes (telegram_truncate tupLongW.answer) [tupFinW] =
      telegram_truncate tupFinW.answer ::
        stream_presenter_pushes (telegram_truncate tupFinW.answer) [] :=
    (stream_presenter_threshold (telegram_truncate tupLongW.answer) tupFinW []).2.2 rfl
  rw [h1, h2, h3]
  rfl

/-- Each historical Turn contributes exactly two prompt messages. -/
theorem flatMap_prompt_pair_length (dms : List DialogMessage) :
    (dms.flatMap prompt_pair).length = 2 * dms.length := by
  induction dms with
  | nil => rfl
  | cons d rest ih =>
    simp only [List.flatMap_cons, List.length_append, List.length_cons, ih, prompt_pair]
    simp
    omega

/-- Position `2 * pre.length` of the flattened Turn pairs is the user entry of
the Turn following `pre`. -/
theorem flatMap_prompt_pair_get (pre post : List DialogMessage) (dm : DialogMessage) :
    ((pre ++ dm :: post).flatMap prompt_pair).get? (2 * pre.length) =
      some { role := .user, content := .str (dialog_user_content dm.user) } := by
  induction pre with
  | nil => simp [prompt_pair]
  | cons p pre ih =>
    have harith : 2 * (p :: pre).length = 2 * pre.length + 1 + 1 := by
      simp only [List.length_cons]
      omega
    simp only [List.cons_append, List.flatMap_cons, prompt_pair, List.cons_append,
      List.nil_append, harith, List.get?_cons_succ]
    exact ih

/-- The prompt message at position `1 + 2 * pre.length` of a generated prompt
is the user entry of the Turn following `pre`. -/
theorem gen_user_entry (message prompt_start : String) (img : Option String)
    (pre post : List DialogMessage) (dm : DialogMessage) :
    (_generate_prompt_messages message (pre ++ dm :: post) prompt_start img).get?
        (1 + 2 * pre.length) =
      some { role := .user, content := .str (dialog_user_content dm.user) } := by
  have hlt : 2 * pre.length < ((pre ++ dm :: post).flatMap prompt_pair).length := by
    rw [flatMap_prompt_pair_length]
    simp only [List.length_append, List.length_cons]
    omega
  calc (_generate_prompt_messages message (pre ++ dm :: post) prompt_start img).get?
          (1 + 2 * pre.length)
      = (((pre ++ dm :: post).flatMap prompt_pair ++ [_]).get? (2 * pre.length)) := by
        rw [Nat.add_comm 1 (2 * pre.length)]
        rfl
    _ = ((pre ++ dm :: post).flatMap prompt_pair).get? (2 * pre.length) :=
        List.get?_append hlt
    _ = some { role := .user, content := .str (dialog_user_content dm.user) } :=
        flatMap_prompt_pair_get pre post dm

/-- The first-text-block scan agrees with `List.find?` on the `"type"` key. -/
theorem first_text_content_find (items : List Block) (b : Block) :
    items.find? (fun bl => bl.type == some "text") = some b →
      first_text_content items = b.text.getD "" := by
  induction items with
  | nil => intro h; simp at h
  | cons x xs ih =>
    intro h
    by_cases hx : x.type = some "text"
    · rw [List.find?_cons_of_pos _ (by simp [hx])] at h
      cases h
      simp [first_text_content, hx]
    · rw [List.find?_cons_of_neg _ (by simp [hx])] at h
      simp only [first_text_content, if_neg hx]
      exact ih h

/-- C9: building the prompt sequence from the dialog history recovers, at the
position of a stored Turn's user message, exactly the stored plain string, or
the text of the first `"text"` block when the stored user content is a
typed-block sequence containing one. -/
theorem prompt_roundtrip_first_text (message prompt_start : String)
    (pre post : List DialogMessage) (dm : DialogMessage) :
    (∀ s, dm.user = .str s →
      (_generate_prompt_messages message (pre ++ dm :: post) prompt_start none).get?
          (1 + 2 * pre.length) =
        some { role := .user, content := .str s }) ∧
    (∀ items b, dm.user = .blocks items →
      items.find? (fun bl => bl.type == some "text") = some b →
      (_generate_prompt_messages message (pre ++ dm :: post) prompt_start none).get?
          (1 + 2 * pre.length) =
        some { role := .user, content := .str (b.text.getD "") }) := by
  constructor
  · intro s hs
    rw [gen_user_entry, hs]
    rfl
  · intro items b hitems hfind
    rw [gen_user_entry, hitems]
    simp only [dialog_user_content]
    rw [first_text_content_find items b hfind]

/-- C9 witness: a history holding a plain-string Turn and a typed-block Turn
whose first text block carries `"hello"`; the prompt entries at positions 1
and 3 recover `"hi"` and `"hello"`. -/
theorem prompt_roundtrip_first_text_witness :
    (_generate_prompt_messages "new" [dmW 0, dmBlocksW] "sys" none).get? 1 =
      some { role := .user, content := .str "hi" } ∧
    (_generate_prompt_messages "new" [dmW 0, dmBlocksW] "sys" none).get? 3 =
      some { role := .user, content := .str "hello" } := by
  constructor
  · have h := (prompt_roundtrip_first_text "new" "sys" [] [dmBlocksW] (dmW 0)).1 "hi" rfl
    simpa using h
  · have h := (prompt_roundtrip_first_text "new" "sys" [dmW 0] [] dmBlocksW).2
      [{ type := some "image", text := none, payload := some "xyz" },
       { type := some "text", text := some "hello", payload := none },
       { type := some "text", text := some "later", payload := none }]
      { type := some "text", text := some "hello", payload := none }
      rfl (by decide)
    simpa using h

/-- One `update_n_used_tokens` step on a registered user: it succeeds, and
the user's ledger entry for the model becomes the additive merge of the
previous entry with the recorded amounts. -/
theorem update_n_used_tokens_lookup (db : Database) (user_id : Int) (model : String)
    (doc : UserDoc) (nIn nOut : Nat) (hu : db.users user_id = some doc) :
    ∃ db1 doc1, update_n_used_tokens db user_id model nIn nOut = some db1 ∧
      db1.users user_id = some doc1 ∧
      doc1.n_used_tokens model = some (merged_token_count (doc.n_used_tokens model) nIn nOut) := by
  simp only [update_n_used_tokens, hu]
  refine ⟨_, { doc with n_used_tokens := fun m =>
      if m = model then
        match doc.n_used_tokens model with
        | some c =>
          some { n_input_tokens := c.n_input_tokens + nIn
                 n_output_tokens := c.n_output_tokens + nOut }
        | none =>
          some { n_input_tokens := nIn
                 n_output_tokens := nOut }
      else doc.n_used_tokens m }, rfl, by simp, ?_⟩
  cases hm : doc.n_used_tokens model <;> simp [merged_token_count, hm]

/-- C7: usage recording is an additive merge into the per-model counters of a
registered user: an existing entry is incremented componentwise, a missing
entry is created with the recorded amounts, and recording (10, 5) then (3, 7)
on a fresh model key leaves the entry at (13, 12). -/
theorem update_n_used_tokens_additive
    (db : Database) (user_id : Int) (model : String) (doc : UserDoc)
    (nIn nOut : Nat) (hu : db.users user_id = some doc) :
    (∀ x y, doc.n_used_tokens model = some { n_input_tokens := x, n_output_tokens := y } →
      ∃ db1, update_n_used_tokens db user_id model nIn nOut = some db1 ∧
        get_n_used_tokens db1 user_id model =
          some { n_input_tokens := x + nIn, n_output_tokens := y + nOut }) ∧
    (doc.n_used_tokens model = none →
      ∃ db1, update_n_used_tokens db user_id model nIn nOut = some db1 ∧
        get_n_used_tokens db1 user_id model =
          some { n_input_tokens := nIn, n_output_tokens := nOut }) ∧
    (doc.n_used_tokens model = none →
      ∃ db1 db2, update_n_used_tokens db user_id model 10 5 = some db1 ∧
        update_n_used_tokens db1 user_id model 3 7 = some db2 ∧
        get_n_used_tokens db2 user_id model =
          some { n_input_tokens := 13, n_output_tokens := 12 }) := by
  refine ⟨?_, ?_, ?_⟩
  · intro x y hsome
    simp only [update_n_used_tokens, hu]
    exact ⟨_, rfl, by simp [get_n_used_tokens, hsome]⟩
  · intro hnone
    simp only [update_n_used_tokens, hu]
    exact ⟨_, rfl, by simp [get_n_used_tokens, hnone]⟩
  · intro hnone
    obtain ⟨db1, doc1, h1, hu1, hl1⟩ :=
      update_n_used_tokens_lookup db user_id model doc 10 5 hu
    obtain ⟨db2, doc2, h2, hu2, hl2⟩ :=
      update_n_used_tokens_lookup db1 user_id model doc1 3 7 hu1
    refine ⟨db1, db2, h1, h2, ?_⟩
    rw [hnone] at hl1
    rw [hl1] at hl2
    simp only [get_n_used_tokens, hu2, hl2]
    rfl

/-- C7 witness: user 1 of `dbW` has no ledger entry for `"gpt-4o-mini"`;
recording (10, 5) and then (3, 7) leaves the entry at (13, 12). -/
theorem update_n_used_tokens_additive_witness :
    ∃ db1 db2, update_n_used_tokens dbW 1 "gpt-4o-mini" 10 5 = some db1 ∧
      update_n_used_tokens db1 1 "gpt-4o-mini" 3 7 = some db2 ∧
      get_n_used_tokens db2 1 "gpt-4o-mini" =
        some { n_input_tokens := 13, n_output_tokens := 12 } :=
  (update_n_used_tokens_additive dbW 1 "gpt-4o-mini" docW 0 0 rfl).2.2 rfl

/-- C8: for a registered user and a fresh dialog identifier (the model of
`uuid.uuid4()` freshness), `start_new_dialog` succeeds, creates a dialog with
an empty Turn sequence snapshotting the user's current chat mode and model,
and points the user's `current_dialog_id` at the new dialog. -/
theorem start_new_dialog_spec (db : Database) (user_id : Int) (doc : UserDoc)
    (new_dialog_id : String) (now : Nat)
    (hu : db.users user_id = some doc) (hfresh : db.dialogs new_dialog_id = none) :
    ∃ db2, start_new_dialog db user_id new_dialog_id now = some db2 ∧
      db2.dialogs new_dialog_id =
        some { user_id := user_id, chat_mode := doc.current_chat_mode, start_time := now,
               model := doc.current_model, messages := [] } ∧
      db2.users user_id = some { doc with current_dialog_id := some new_dialog_id } := by
  simp only [start_new_dialog, hu, hfresh, Option.isSome_none, Bool.false_eq_true, if_false]
  exact ⟨_, rfl, by simp, by simp⟩

/-- C8 witness: user 1 of `dbW` starts the fresh dialog `"d1"` at time 5. -/
theorem start_new_dialog_spec_witness :
    ∃ db2, start_new_dialog dbW 1 "d1" 5 = some db2 ∧
      db2.dialogs "d1" =
        some { user_id := 1, chat_mode := docW.current_chat_mode, start_time := 5,
               model := docW.current_model, messages := [] } ∧
      db2.users 1 = some { docW with current_dialog_id := some "d1" } :=
  start_new_dialog_spec dbW 1 docW "d1" 5 rfl rfl

/-- `add_new_user` leaves the database unchanged when the user already
exists. -/
theorem add_new_user_existing (db : Database) (user_id chat_id : Int)
    (username first_name last_name : String) (now : Nat) (default_model : String)
    (h : (db.users user_id).isSome) :
    add_new_user db user_id chat_id username first_name last_name now default_model = db := by
  simp [add_new_user, check_if_user_exists, h]

/-- C10: registering a user is idempotent on the user store: `add_new_user`
for an already-registered identifier leaves the database (in particular the
existing user document) entirely unchanged, and registration followed by a
repeated registration (with any arguments) equals the single registration. -/
theorem add_new_user_idempotent :
    (∀ (db : Database) (user_id chat_id : Int) (username first_name last_name : String)
        (now : Nat) (default_model : String) (doc : UserDoc),
      db.users user_id = some doc →
      add_new_user db user_id chat_id username first_name last_name now default_model = db) ∧
    (∀ (db : Database) (user_id : Int) (c1 : Int) (u1 f1 l1 : String) (n1 : Nat) (m1 : String)
        (c2 : Int) (u2 f2 l2 : String) (n2 : Nat) (m2 : String),
      add_new_user (add_new_user db user_id c1 u1 f1 l1 n1 m1) user_id c2 u2 f2 l2 n2 m2 =
        add_new_user db user_id c1 u1 f1 l1 n1 m1) := by
  constructor
  · intro db user_id chat_id username first_name last_name now default_model doc h
    exact add_new_user_existing db user_id chat_id username first_name last_name now
      default_model (by simp [h])
  · intro db user_id c1 u1 f1 l1 n1 m1 c2 u2 f2 l2 n2 m2
    by_cases hex : (db.users user_id).isSome
    · rw [add_new_user_existing db user_id c1 u1 f1 l1 n1 m1 hex]
      exact add_new_user_existing db user_id c2 u2 f2 l2 n2 m2 hex
    · apply add_new_user_existing
      simp only [add_new_user, check_if_user_exists, hex, Bool.false_eq_true, if_false]
      simp

/-- C10 witness: re-registering the existing user 1 of `dbW` changes nothing,
and double registration of a fresh user 2 equals a single registration. -/
theorem add_new_user_idempotent_witness :
    add_new_user dbW 1 99 "x" "y" "z" 7 "gpt-4o" = dbW ∧
    add_new_user (add_new_user dbW 2 8 "a" "b" "c" 3 "gpt-4o") 2 9 "d" "e" "f" 4 "gpt-4o-mini" =
      add_new_user dbW 2 8 "a" "b" "c" 3 "gpt-4o" :=
  ⟨add_new_user_idempotent.1 dbW 1 99 "x" "y" "z" 7 "gpt-4o" docW rfl,
   add_new_user_idempotent.2 dbW 2 8 "a" "b" "c" 3 "gpt-4o" 9 "d" "e" "f" 4 "gpt-4o-mini"⟩

/-- C3: for an in-flight generation of a registered user (with a valid current
dialog) that is cancelled after accruing token counts, the counts are merged
into the user's per-model ledger and the recording event precedes the
re-raised cancellation in the handler's trace; afterwards the per-user
in-flight-task slot is empty, and the slot is likewise cleared on success and
on failure. -/
theorem cancelled_generation_records_usage
    (db : Database) (user_id : Int) (doc : UserDoc) (model : String)
    (message : String) (date : Nat) (nIn nOut : Nat) (did : String) (dd : DialogDoc)
    (hu : db.users user_id = some doc)
    (hdid : doc.current_dialog_id = some did)
    (hdd : db.dialogs did = some dd)
    (howner : dd.user_id = user_id) :
    (∃ s2, runHandlerEvents user_id model
        (message_handle_events message date (.cancelled nIn nOut))
        { db := db, inFlight := false } = some s2 ∧
      s2.inFlight = false ∧
      get_n_used_tokens s2.db user_id model =
        some (merged_token_count (doc.n_used_tokens model) nIn nOut)) ∧
    ((message_handle_events message date (.cancelled nIn nOut)).indexOf
        (.recordUsage nIn nOut) <
      (message_handle_events message date (.cancelled nIn nOut)).indexOf .raiseCancelled) ∧
    (∀ o : HandlerOutcome, ∃ s2, runHandlerEvents user_id model
        (message_handle_events message date o) { db := db, inFlight := false } = some s2 ∧
      s2.inFlight = false) := by
  refine ⟨?_, ?_, ?_⟩
  · obtain ⟨db1, doc1, h1, hu1, hl1⟩ :=
      update_n_used_tokens_lookup db user_id model doc nIn nOut hu
    refine ⟨{ db := db1, inFlight := false }, ?_, rfl, ?_⟩
    · simp [runHandlerEvents, message_handle_events, message_handle_fn_events,
        applyBotEvent, List.foldlM, h1]
    · simp [get_n_used_tokens, hu1, hl1]
  · simp [message_handle_events, message_handle_fn_events, List.indexOf_cons]
  · intro o
    cases o with
    | success a nI nO =>
      have hget : get_dialog_messages db user_id none = some dd.messages := by
        simp [get_dialog_messages, hu, hdid, hdd, howner]
      rcases hset : set_dialog_messages db user_id
          (dd.messages ++
            [{ user := .blocks [{ type := some "text", text := some message, payload := none }],
               bot := a, date := date }]) none with _ | dbs
      · exfalso
        simp [set_dialog_messages, hu] at hset
      · have husers : dbs.users user_id = some doc := by
          simp only [set_dialog_messages, hu, Option.some.injEq] at hset
          rw [← hset]
          exact hu
        obtain ⟨db1, doc1, h1, hu1, hl1⟩ :=
          update_n_used_tokens_lookup dbs user_id model doc nI nO husers
        refine ⟨{ db := db1, inFlight := false }, ?_, rfl⟩
        simp [runHandlerEvents, message_handle_events, message_handle_fn_events,
          applyBotEvent, List.foldlM, hget, hset, h1]
    | cancelled nI nO =>
      obtain ⟨db1, doc1, h1, hu1, hl1⟩ :=
        update_n_used_tokens_lookup db user_id model doc nI nO hu
      refine ⟨{ db := db1, inFlight := false }, ?_, rfl⟩
      simp [runHandlerEvents, message_handle_events, message_handle_fn_events,
        applyBotEvent, List.foldlM, h1]
    | failure =>
      refine ⟨{ db := db, inFlight := false }, ?_, rfl⟩
      simp [runHandlerEvents, message_handle_events, message_handle_fn_events,
        applyBotEvent, List.foldlM]

/-- C3 witness: user 1 of `dbW` with model `"gpt-4o-mini"`, cancelled after
accruing (4, 6): the run succeeds, the ledger entry is created at (4, 6), the
slot is empty, and the trace records usage before re-raising. -/
theorem cancelled_generation_records_usage_witness :
    (∃ s2, runHandlerEvents 1 "gpt-4o-mini"
        (message_handle_events "question" 9 (.cancelled 4 6))
        { db := dbW, inFlight := false } = some s2 ∧
      s2.inFlight = false ∧
      get_n_used_tokens s2.db 1 "gpt-4o-mini" =
        some (merged_token_count (docW.n_used_tokens "gpt-4o-mini") 4 6)) ∧
    ((message_handle_events "question" 9 (.cancelled 4 6)).indexOf (.recordUsage 4 6) <
      (message_handle_events "question" 9 (.cancelled 4 6)).indexOf .raiseCancelled) ∧
    (∀ o : HandlerOutcome, ∃ s2, runHandlerEvents 1 "gpt-4o-mini"
        (message_handle_events "question" 9 o) { db := dbW, inFlight := false } = some s2 ∧
      s2.inFlight = false) :=
  cancelled_generation_records_usage dbW 1 docW "gpt-4o-mini" "question" 9 4 6 "d0" ddW
    rfl rfl rfl rfl

/-- One scheduler step preserves the mutual-exclusion invariant. -/
theorem admInv_step : ∀ (s : AdmState) (i : Bool),
    admInv s = true → admInv (admStep s i) = true := by decide

/-- Any interleaving preserves the mutual-exclusion invariant. -/
theorem admInv_run (sched : List Bool) :
    ∀ s : AdmState, admInv s = true → admInv (admRun sched s) = true := by
  induction sched with
  | nil => intro s h; exact h
  | cons i rest ih => intro s h; exact ih (admStep s i) (admInv_step s i h)

/-- Under the mutual-exclusion invariant the two tasks are never both
working. -/
theorem admInv_no_both_working : ∀ s : AdmState,
    admInv s = true → ¬(s.pc0 = .working ∧ s.pc1 = .working) := by decide

/-- An overlap-respecting scheduler step preserves the strengthened
invariant. -/
theorem admInv2_step : ∀ (s : AdmState) (i : Bool),
    admInv2 s = true → overlapOK s i = true → admInv2 (admStep s i) = true := by decide

/-- Any overlap-respecting interleaving preserves the strengthened
invariant. -/
theorem admInv2_run (sched : List Bool) :
    ∀ s : AdmState, admInv2 s = true → schedOverlapOK s sched = true →
      admInv2 (admRun sched s) = true := by
  induction sched with
  | nil => intro s h _; exact h
  | cons i rest ih =>
    intro s h hok
    simp only [schedOverlapOK, Bool.and_eq_true] at hok
    exact ih (admStep s i) (admInv2_step s i h hok.1) hok.2

/-- In a terminal state of the strengthened invariant, exactly one task was
accepted and exactly one was rejected as `Busy`. -/
theorem admInv2_terminal : ∀ s : AdmState,
    admInv2 s = true → bothTerminal s = true →
      acceptedCount s = 1 ∧ busyCount s = 1 := by decide

/-- C2: under every interleaving of two generation requests of the same user,
at most one generation task is in flight at any instant; and whenever both
requests are issued before the first completes (every admission check happens
before the other request is done) and both run to completion, exactly one
request is accepted (spawned) and exactly one receives the `Busy` "please
wait" rejection, regardless of arrival order. -/
theorem admission_exclusive (sched : List Bool) :
    (¬((admRun sched admInit).pc0 = .working ∧ (admRun sched admInit).pc1 = .working)) ∧
    (schedOverlapOK admInit sched = true → bothTerminal (admRun sched admInit) = true →
      acceptedCount (admRun sched admInit) = 1 ∧ busyCount (admRun sched admInit) = 1) := by
  constructor
  · exact admInv_no_both_working _ (admInv_run sched admInit (by decide))
  · intro hok hterm
    exact admInv2_terminal _ (admInv2_run sched admInit (by decide) hok) hterm

/-- C2 witness: the schedule where request 0 is admitted, request 1 checks
while 0 is still working (and is rejected `Busy`), and request 0 then
finishes: one acceptance, one rejection. -/
theorem admission_exclusive_witness :
    acceptedCount (admRun [false, true, false] admInit) = 1 ∧
    busyCount (admRun [false, true, false] admInit) = 1 :=
  (admission_exclusive [false, true, false]).2 (by decide) (by decide)
